import Mathlib

/-!
Verification development for the background repository-history loader
(`src/app/loader.rs` of the repository under study).

The loader code is a worker thread that consumes `LoaderCommand`s from a
bounded command channel, provisions an ephemeral workspace (local copy or
remote clone), resolves a branch tip, walks commit ancestry to a bounded
depth, checks out and measures each commit, and streams
`Result<LoaderData, LoaderError>` values on a bounded result channel.

The shallow embedding below renders every function of `loader.rs` as a pure
Lean function over an explicit environment `RunEnv` that records the answers
of the external world (filesystem, git library, stats engine) to the exact
calls the source makes.  Rust panics (`unwrap` / `expect` on a failing call)
are modelled as explicit `panicked` outcomes, distinct from the `Err` values
the source propagates with `?`.
-/

deriving instance DecidableEq for Except

/-- Per-language statistics record, embedding `CodeStats` of `loader.rs`
(lines 13-20).  `tokei::LanguageType` is an opaque identifier; it is modelled
as a `String`. -/
structure CodeStats where
  language : String
  files : Nat
  code : Nat
  comments : Nat
  blanks : Nat
deriving DecidableEq

/-- Embedding of `CommitReport` (`loader.rs` lines 21-26). -/
structure CommitReport where
  commit_date : Int
  commit_hash : String
  stats : List CodeStats
deriving DecidableEq

/-- Embedding of `Config` (`app.rs`): one walk request. -/
structure Config where
  depth : Nat
  repo_url : String
  repo_branch : String
deriving DecidableEq

/-- Embedding of `LoaderCommand` (`loader.rs` lines 27-30). -/
inductive LoaderCommand
  | config (c : Config)
  | die
deriving DecidableEq

/-- Embedding of `LoaderData` (`loader.rs` lines 31-34).  The
`fetchProgress` variant is declared by the source but, as proved below,
never constructed by the worker. -/
inductive LoaderData
  | commitReport (r : CommitReport)
  | fetchProgress
deriving DecidableEq

/-- Embedding of `LoaderError` (`loader.rs` lines 176-179); a `git2::Error`
is represented by its message string. -/
inductive LoaderError
  | git (msg : String)
  | other (msg : String)
deriving DecidableEq

/-- Embedding of `LoaderQuiteCause` (`loader.rs` lines 47-50), the source's
(sic) name for why the loop body returned normally. -/
inductive LoaderQuiteCause
  | die
  | finished
deriving DecidableEq

/-- What the source's `repository.find_commit(id)` yields for one commit:
its recorded timestamp in seconds (`commit.time().seconds()`) and whether
`commit.tree()` succeeds.  `find_commit` returns the commit stored at the
queried id, so the id itself is not duplicated here: the walked id is the
commit's full hex identifier. -/
structure Commit where
  timeSeconds : Int
  treeOk : Bool
deriving DecidableEq

/-- The per-language aggregate the source reads off one `tokei::Language`
value `d`: `d.reports.len()`, `d.code`, `d.comments`, `d.blanks`. -/
structure LangData where
  reports : Nat
  code : Nat
  comments : Nat
  blanks : Nat
deriving DecidableEq

/-- Environment of one loop iteration: the answers of the filesystem, the
git library and the stats engine to the exact calls `loader_loop` and its
helpers make.  Each field corresponds to one external call site:
`tempdirOk` to `tempfile::tempdir_in(".")`, `pathExists` to
`Path::new(url).exists()`, `copyOk` to `fs_extra::dir::copy`, `openResult`
to `Repository::open`, `cloneResult` to `RepoBuilder::clone`,
`revwalkNewOk` to `repository.revwalk()`, `revparse` to
`repository.revparse_single`, `pushOk` to `revwalk.push`, `walkItems` to
the items the revwalk iterator yields from a pushed tip (before the
`take`), `findCommit` to `repository.find_commit`, `checkoutOk` to
`repository.checkout_tree`, `setHeadOk` to `repository.set_head_detached`,
and `statsOf` to the per-language map `tokei` computes for the tree checked
out at that commit. -/
structure RunEnv where
  tempdirOk : Bool
  pathExists : String → Bool
  copyOk : String → Bool
  openResult : Except String Unit
  cloneResult : String → Except String Unit
  revwalkNewOk : Bool
  revparse : String → Except String String
  pushOk : String → Bool
  walkItems : String → List (Except String String)
  findCommit : String → Option Commit
  checkoutOk : String → Bool
  setHeadOk : String → Bool
  statsOf : String → List (String × LangData)

/-- Embedding of `is_local_repo` (`loader.rs` lines 203-205):
`Path::new(url).exists()`. -/
def is_local_repo (env : RunEnv) (url : String) : Bool :=
  env.pathExists url

/-- Embedding of `copy_local_repo` (`loader.rs` lines 232-241): a recursive
content copy of `src` into the ephemeral directory followed by
`Repository::open`; a copy fault is mapped to the fixed `Other` message, an
open fault to a `Git` error. -/
def copy_local_repo (env : RunEnv) (src : String) : Except LoaderError Unit :=
  if env.copyOk src then
    match env.openResult with
    | Except.ok _ => Except.ok ()
    | Except.error e => Except.error (LoaderError.git e)
  else
    Except.error (LoaderError.other "Failed to copy local git repo")

/-- Embedding of `clone_remote` (`loader.rs` lines 207-230) at the level of
its result: `builder.clone(repo_url, target)` mapped into `LoaderError` via
`From` (a `Git` error).  The credential callback it installs is embedded
separately as `credentials_callback`. -/
def clone_remote (env : RunEnv) (url : String) : Except LoaderError Unit :=
  match env.cloneResult url with
  | Except.ok _ => Except.ok ()
  | Except.error e => Except.error (LoaderError.git e)

/-- Which provisioning action the workspace acquisition ran. -/
inductive ProvisionMethod
  | copied
  | cloned
deriving DecidableEq

/-- Result of workspace acquisition: which action was attempted (none when
the ephemeral directory itself could not be created) and the
`Result<RepositoryHandle, LoaderError>` of the source, with the handle
value elided (its only observable content here is that acquisition
succeeded). -/
structure ProvisionOutcome where
  attempted : Option ProvisionMethod
  result : Except LoaderError Unit
deriving DecidableEq

/-- Embedding of `initialize` (`loader.rs` lines 80-94), named after the
spec's `acquire`: create the ephemeral directory, then copy a local
repository if `is_local_repo` holds of the locator, otherwise clone it as a
remote URL. -/
def acquire (env : RunEnv) (cfg : Config) : ProvisionOutcome :=
  if env.tempdirOk then
    if is_local_repo env cfg.repo_url then
      { attempted := some ProvisionMethod.copied
        result := copy_local_repo env cfg.repo_url }
    else
      { attempted := some ProvisionMethod.cloned
        result := clone_remote env cfg.repo_url }
  else
    { attempted := none
      result := Except.error (LoaderError.other "Failed to create temp dir") }

/-- Embedding of the tip resolution in `loader_loop` (`loader.rs` lines
135-138): `revparse_single("refs/remotes/origin/<branch>")`, falling back
via `or_else` to `revparse_single("refs/heads/<branch>")`, the final error
mapped to `LoaderError::Other` of the error's rendering. -/
def resolveTip (env : RunEnv) (branch : String) : Except LoaderError String :=
  match env.revparse ("refs/remotes/origin/" ++ branch) with
  | Except.ok id => Except.ok id
  | Except.error _ =>
    match env.revparse ("refs/heads/" ++ branch) with
    | Except.ok id => Except.ok id
    | Except.error e => Except.error (LoaderError.other e)

/-- How one call of `loader_loop` ends: the source's
`Result<LoaderQuiteCause, LoaderError>`, extended with `panicked` for the
`unwrap`/`expect` calls inside it that kill the worker thread when the
underlying operation fails. -/
inductive LoopExit
  | ok (cause : LoaderQuiteCause)
  | err (e : LoaderError)
  | panicked (msg : String)
deriving DecidableEq

/-- Observable behaviour of one `loader_loop` call: the `Ok`-wrapped data
values it sent on the result channel in order, the commits the stats engine
was invoked on in order, how the call ended, and which provisioning action
was attempted. -/
structure LoopResult where
  events : List LoaderData
  statsCalls : List String
  exit : LoopExit
  attempted : Option ProvisionMethod
deriving DecidableEq

/-- The closure mapped over `stats.iter()` in `loader.rs` lines 160-166:
one `CodeStats` from one `(LanguageType, Language)` entry. -/
def mkCodeStats (p : String × LangData) : CodeStats :=
  { language := p.1
    files := p.2.reports
    code := p.2.code
    comments := p.2.comments
    blanks := p.2.blanks }

/-- Embedding of the `for maybe_commit_id in revwalk.take(config.depth)`
body (`loader.rs` lines 141-171), applied to the truncated item list.  A
walk item error is propagated with `?` as `LoaderError::Other`; failures of
`find_commit`, `commit.tree()`, `checkout_tree`, `set_head_detached` are
`unwrap` calls and panic; otherwise the stats engine runs on the checked
out tree, a report is assembled and sent. -/
def processCommits (env : RunEnv) : List (Except String String) → LoopResult
  | [] =>
    { events := [], statsCalls := []
      exit := LoopExit.ok LoaderQuiteCause.finished, attempted := none }
  | Except.error e :: _ =>
    { events := [], statsCalls := []
      exit := LoopExit.err (LoaderError.other e), attempted := none }
  | Except.ok i :: rest =>
    match env.findCommit i with
    | none =>
      { events := [], statsCalls := []
        exit := LoopExit.panicked "find_commit unwrap", attempted := none }
    | some c =>
      if c.treeOk then
        if env.checkoutOk i then
          if env.setHeadOk i then
            let report : CommitReport :=
              { commit_date := c.timeSeconds
                commit_hash := i
                stats := (env.statsOf i).map mkCodeStats }
            let r := processCommits env rest
            { events := LoaderData.commitReport report :: r.events
              statsCalls := i :: r.statsCalls
              exit := r.exit
              attempted := none }
          else
            { events := [], statsCalls := []
              exit := LoopExit.panicked "set_head_detached unwrap", attempted := none }
        else
          { events := [], statsCalls := []
            exit := LoopExit.panicked "checkout_tree unwrap", attempted := none }
      else
        { events := [], statsCalls := []
          exit := LoopExit.panicked "commit tree unwrap", attempted := none }

/-- Embedding of `loader_loop` (`loader.rs` lines 114-174), with the one
received command passed explicitly: `Die` returns at once; a `Config`
provisions the workspace, creates the revwalk (`expect`), resolves the tip,
pushes it (`unwrap`), and runs the per-commit loop over the first `depth`
walk items. -/
def loader_loop (env : RunEnv) (cmd : LoaderCommand) : LoopResult :=
  match cmd with
  | LoaderCommand.die =>
    { events := [], statsCalls := []
      exit := LoopExit.ok LoaderQuiteCause.die, attempted := none }
  | LoaderCommand.config cfg =>
    match (acquire env cfg).result with
    | Except.error e =>
      { events := [], statsCalls := []
        exit := LoopExit.err e, attempted := (acquire env cfg).attempted }
    | Except.ok _ =>
      if env.revwalkNewOk then
        match resolveTip env cfg.repo_branch with
        | Except.error e =>
          { events := [], statsCalls := []
            exit := LoopExit.err e, attempted := (acquire env cfg).attempted }
        | Except.ok tip =>
          if env.pushOk tip then
            { processCommits env ((env.walkItems tip).take cfg.depth) with
                attempted := (acquire env cfg).attempted }
          else
            { events := [], statsCalls := []
              exit := LoopExit.panicked "revwalk push unwrap"
              attempted := (acquire env cfg).attempted }
      else
        { events := [], statsCalls := []
          exit := LoopExit.panicked "Failed to get revwalk"
          attempted := (acquire env cfg).attempted }

/-- How the worker thread as a whole ends in the model: `terminated` after a
`Die` command (the `break` in `loader_main`), `awaiting` when the supplied
command list is exhausted and the worker blocks in `recv` for the next
command (the Idle state), `panicked` when a loop iteration panicked. -/
inductive MainExit
  | terminated
  | awaiting
  | panicked (msg : String)
deriving DecidableEq

/-- Full observable trace of the worker thread: everything sent on the
result channel in order (reports and errors interleaved exactly as sent),
all stats-engine invocations in order, and how the thread ended. -/
structure MainTrace where
  events : List (Except LoaderError LoaderData)
  statsCalls : List String
  exit : MainExit
deriving DecidableEq

/-- Embedding of `loader_main` (`loader.rs` lines 96-113) run against a
finite list of commands, each paired with the environment of its
iteration: `Ok(Die)` breaks the loop, `Ok(Finished)` continues, `Err(e)`
sends exactly one `Err` value on the result channel and continues; a panic
inside the iteration ends the thread at once. -/
def loader_main : List (LoaderCommand × RunEnv) → MainTrace
  | [] => { events := [], statsCalls := [], exit := MainExit.awaiting }
  | (cmd, env) :: rest =>
    let r := loader_loop env cmd
    match r.exit with
    | LoopExit.ok LoaderQuiteCause.die =>
      { events := r.events.map Except.ok
        statsCalls := r.statsCalls
        exit := MainExit.terminated }
    | LoopExit.ok LoaderQuiteCause.finished =>
      let m := loader_main rest
      { events := r.events.map Except.ok ++ m.events
        statsCalls := r.statsCalls ++ m.statsCalls
        exit := m.exit }
    | LoopExit.err e =>
      let m := loader_main rest
      { events := r.events.map Except.ok ++ Except.error e :: m.events
        statsCalls := r.statsCalls ++ m.statsCalls
        exit := m.exit }
    | LoopExit.panicked msg =>
      { events := r.events.map Except.ok
        statsCalls := r.statsCalls
        exit := MainExit.panicked msg }

/-- Whether one walk item is processed without error or panic: it is an
`Ok` id whose commit is found with a loadable tree, and checkout and head
detachment succeed on it. -/
def itemClean (env : RunEnv) : Except String String → Bool
  | Except.error _ => false
  | Except.ok i =>
    (match env.findCommit i with
     | some c => c.treeOk
     | none => false) && env.checkoutOk i && env.setHeadOk i

/-- The id carried by an `Ok` walk item. -/
def okId : Except String String → String
  | Except.ok i => i
  | Except.error _ => ""

/-- The commit the environment stores at an id, with a junk default for
absent ids (only used under hypotheses that rule the default out). -/
def commitOf (env : RunEnv) (i : String) : Commit :=
  (env.findCommit i).getD { timeSeconds := 0, treeOk := false }

/-- The report the loop assembles for the commit at id `i`. -/
def reportOfId (env : RunEnv) (i : String) : CommitReport :=
  { commit_date := (commitOf env i).timeSeconds
    commit_hash := i
    stats := (env.statsOf i).map mkCodeStats }

/-- Embedding of the `allowed_types` argument of the credential callback
(`loader.rs` line 209): the two predicates the source queries on it. -/
structure AllowedTypes where
  is_ssh_key : Bool
  is_user_pass_plaintext : Bool
deriving DecidableEq

/-- Credential values the callback can produce, after `git2::Cred`. -/
inductive Cred
  | sshKeyFromAgent (username : String)
  | userpassPlaintext (username password : String)
deriving DecidableEq

/-- Environment of the credential callback: the result of
`Cred::ssh_key_from_agent` for a username, and the `GIT_USERNAME` and
`GIT_PASSWORD` process environment variables. -/
structure CredEnv where
  agentKey : String → Except String Cred
  gitUsernameVar : Option String
  gitPasswordVar : Option String

/-- How one callback invocation ends: a credential, a `git2::Error` (which
makes the clone, and with it provisioning, fail), or a panic from the
`expect` on a missing `GIT_PASSWORD`. -/
inductive CredOutcome
  | ok (c : Cred)
  | err (msg : String)
  | panicked (msg : String)
deriving DecidableEq

/-- Embedding of the credentials closure installed by `clone_remote`
(`loader.rs` lines 209-219): ssh-key requests go to the agent under the
server-suggested username or `"git"`; plaintext user/password requests read
`GIT_USERNAME` (default `"git"`) and `GIT_PASSWORD` (`expect`: a panic when
absent); any other request is answered with a fixed error. -/
def credentials_callback (cenv : CredEnv) (username_from_url : Option String)
    (allowed : AllowedTypes) : CredOutcome :=
  if allowed.is_ssh_key then
    match cenv.agentKey (username_from_url.getD "git") with
    | Except.ok c => CredOutcome.ok c
    | Except.error e => CredOutcome.err e
  else if allowed.is_user_pass_plaintext then
    match cenv.gitPasswordVar with
    | some pass =>
      CredOutcome.ok (Cred.userpassPlaintext (cenv.gitUsernameVar.getD "git") pass)
    | none => CredOutcome.panicked "Set GIT_PASSWORD or GIT_TOKEN env var"
  else
    CredOutcome.err "Unsupported credential type"

/-- Consumer-side view of the result channel: the buffered values in order,
and whether the sending side (the worker) is still alive. -/
structure ChannelView where
  buffered : List (Except LoaderError LoaderData)
  senderAlive : Bool

/-- What one `try_recv` call on the handle observes. -/
inductive TryRecvOutcome
  | received (v : Except LoaderError LoaderData)
  | empty
  | panicked (msg : String)
deriving DecidableEq

/-- Embedding of `RepositoryLoader::try_recv` (`loader.rs` lines 71-77)
over the channel view, with `std::sync::mpsc` semantics: a buffered value
is returned even after the sender died; an empty connected channel yields
`None` (here `empty`) at once; an empty disconnected channel is the
source's `panic` with message `thread is dead`. -/
def try_recv (ch : ChannelView) : TryRecvOutcome :=
  match ch.buffered with
  | v :: _ => TryRecvOutcome.received v
  | [] =>
    if ch.senderAlive then TryRecvOutcome.empty
    else TryRecvOutcome.panicked "thread is dead"

/-- What one `update_config` call on the handle does. -/
inductive SendOutcome
  | sent (c : LoaderCommand)
  | panicked (msg : String)
deriving DecidableEq

/-- Embedding of `RepositoryLoader::update_config` (`loader.rs` lines
67-70): sends a `Config` command; the `unwrap` panics when the worker (the
receiving side) is gone. -/
def update_config (workerAlive : Bool) (cfg : Config) : SendOutcome :=
  if workerAlive then SendOutcome.sent (LoaderCommand.config cfg)
  else SendOutcome.panicked "send on a closed channel"

/-- The public methods of the `RepositoryLoader` handle (`loader.rs` lines
52-78): exactly `new`, `update_config` and `try_recv`. -/
inductive LoaderMethod
  | new
  | update_config (cfg : Config)
  | try_recv

/-- The command, if any, a handle method sends on the command channel:
`update_config` sends `Config`; no method sends anything else. -/
def methodCommand : LoaderMethod → Option LoaderCommand
  | LoaderMethod.new => none
  | LoaderMethod.update_config cfg => some (LoaderCommand.config cfg)
  | LoaderMethod.try_recv => none

/-- Whether a handle method sends the `Die` command. -/
def methodSendsDie (m : LoaderMethod) : Bool :=
  match methodCommand m with
  | some LoaderCommand.die => true
  | _ => false

/-- Whether a result-channel value is anything but a `FetchProgress`. -/
def isNotProgress : Except LoaderError LoaderData → Bool
  | Except.ok LoaderData.fetchProgress => false
  | _ => true

/-- Whether a data value is anything but a `FetchProgress`. -/
def dataNotProgress : LoaderData → Bool
  | LoaderData.fetchProgress => false
  | _ => true

/-- Concrete run environment for witnesses: a local repository whose walk
from any tip yields two healthy commits. -/
def envA : RunEnv :=
  { tempdirOk := true
    pathExists := fun _ => true
    copyOk := fun _ => true
    openResult := Except.ok ()
    cloneResult := fun _ => Except.ok ()
    revwalkNewOk := true
    revparse := fun _ => Except.ok "t0"
    pushOk := fun _ => true
    walkItems := fun _ => [Except.ok "c0", Except.ok "c1"]
    findCommit := fun _ => some { timeSeconds := 100, treeOk := true }
    checkoutOk := fun _ => true
    setHeadOk := fun _ => true
    statsOf := fun _ => [("Rust", { reports := 1, code := 10, comments := 2, blanks := 3 })] }

/-- Concrete request for witnesses. -/
def cfgA : Config :=
  { depth := 2, repo_url := "r", repo_branch := "main" }

/-- Environment in which neither ref form of the branch resolves. -/
def envNoRef : RunEnv :=
  { envA with revparse := fun _ => Except.error "no such ref" }

/-- Environment in which checking a commit out fails. -/
def envCheckoutFail : RunEnv :=
  { envA with checkoutOk := fun _ => false }

/-- Credential environment holding no username and no password material. -/
def cenvEmpty : CredEnv :=
  { agentKey := fun _ => Except.error "no agent identity"
    gitUsernameVar := none
    gitPasswordVar := none }

/-- A run whose truncated walk items are all clean processes every one of
them in order: one report and one stats-engine invocation per item, and the
loop ends with `Finished`. -/
theorem processCommits_clean (env : RunEnv) :
    ∀ items : List (Except String String), items.all (itemClean env) = true →
      processCommits env items =
        { events := items.map (fun it => LoaderData.commitReport (reportOfId env (okId it)))
          statsCalls := items.map okId
          exit := LoopExit.ok LoaderQuiteCause.finished
          attempted := none }
  | [], _ => rfl
  | it :: rest, h => by
    rw [List.all_cons, Bool.and_eq_true] at h
    obtain ⟨h1, h2⟩ := h
    cases it with
    | error e => simp [itemClean] at h1
    | ok i =>
      simp only [itemClean] at h1
      cases hc : env.findCommit i with
      | none => rw [hc] at h1; simp at h1
      | some c =>
        rw [hc] at h1
        simp only [Bool.and_eq_true] at h1
        obtain ⟨⟨ht, hco⟩, hsh⟩ := h1
        simp only [processCommits, hc, ht, hco, hsh, if_true,
          processCommits_clean env rest h2, List.map_cons]
        simp [reportOfId, commitOf, hc, okId]

/-- Under a successful provisioning, revwalk creation, resolution and push,
`loader_loop` on a `Config` command is exactly the per-commit loop over the
first `depth` walk items. -/
theorem loader_loop_clean (env : RunEnv) (cfg : Config) (tip : String)
    (h1 : (acquire env cfg).result = Except.ok ())
    (h2 : env.revwalkNewOk = true)
    (h3 : resolveTip env cfg.repo_branch = Except.ok tip)
    (h4 : env.pushOk tip = true)
    (h5 : ((env.walkItems tip).take cfg.depth).all (itemClean env) = true) :
    loader_loop env (LoaderCommand.config cfg) =
      { events := ((env.walkItems tip).take cfg.depth).map
          (fun it => LoaderData.commitReport (reportOfId env (okId it)))
        statsCalls := ((env.walkItems tip).take cfg.depth).map okId
        exit := LoopExit.ok LoaderQuiteCause.finished
        attempted := (acquire env cfg).attempted } := by
  simp only [loader_loop, h1, h2, h3, h4, if_true,
    processCommits_clean env _ h5]

/-- When provisioning and revwalk creation succeed but resolution fails,
`loader_loop` returns that error having sent nothing and measured
nothing. -/
theorem loader_loop_resolve_err (env : RunEnv) (cfg : Config) (e : LoaderError)
    (h1 : (acquire env cfg).result = Except.ok ())
    (h2 : env.revwalkNewOk = true)
    (h3 : resolveTip env cfg.repo_branch = Except.error e) :
    loader_loop env (LoaderCommand.config cfg) =
      { events := [], statsCalls := [], exit := LoopExit.err e
        attempted := (acquire env cfg).attempted } := by
  simp only [loader_loop, h1, h2, h3, if_true]

/-- A loop iteration that finishes contributes its events as one contiguous
block, after which the worker processes the remaining commands
unchanged. -/
theorem loader_main_cons_finished (cmd : LoaderCommand) (env : RunEnv)
    (rest : List (LoaderCommand × RunEnv))
    (h : (loader_loop env cmd).exit = LoopExit.ok LoaderQuiteCause.finished) :
    loader_main ((cmd, env) :: rest) =
      { events := (loader_loop env cmd).events.map Except.ok ++ (loader_main rest).events
        statsCalls := (loader_loop env cmd).statsCalls ++ (loader_main rest).statsCalls
        exit := (loader_main rest).exit } := by
  simp only [loader_main, h]

/-- A loop iteration that ends in an error contributes its events followed
by exactly one `Err` value, after which the worker processes the remaining
commands unchanged. -/
theorem loader_main_cons_err (cmd : LoaderCommand) (env : RunEnv)
    (rest : List (LoaderCommand × RunEnv)) (e : LoaderError)
    (h : (loader_loop env cmd).exit = LoopExit.err e) :
    loader_main ((cmd, env) :: rest) =
      { events := (loader_loop env cmd).events.map Except.ok
          ++ Except.error e :: (loader_main rest).events
        statsCalls := (loader_loop env cmd).statsCalls ++ (loader_main rest).statsCalls
        exit := (loader_main rest).exit } := by
  simp only [loader_main, h]

/-- No data value the per-commit loop sends is a `FetchProgress`. -/
theorem processCommits_noProgress (env : RunEnv) :
    ∀ items, ((processCommits env items).events.all dataNotProgress) = true
  | [] => rfl
  | Except.error e :: _ => rfl
  | Except.ok i :: rest => by
    cases hc : env.findCommit i with
    | none => simp [processCommits, hc]
    | some c =>
      cases ht : c.treeOk
      · simp [processCommits, hc, ht]
      · cases hco : env.checkoutOk i
        · simp [processCommits, hc, ht, hco]
        · cases hsh : env.setHeadOk i
          · simp [processCommits, hc, ht, hco, hsh]
          · simp [processCommits, hc, ht, hco, hsh, dataNotProgress,
              processCommits_noProgress env rest]

/-- No data value `loader_loop` sends is a `FetchProgress`. -/
theorem loader_loop_noProgress (env : RunEnv) (cmd : LoaderCommand) :
    ((loader_loop env cmd).events.all dataNotProgress) = true := by
  cases cmd with
  | die => rfl
  | config cfg =>
    simp only [loader_loop]
    split
    · rfl
    · split
      · split
        · rfl
        · split
          · simpa using processCommits_noProgress env _
          · rfl
      · rfl

/-- An `Ok`-wrapped value is not a progress event exactly when its payload
is not. -/
theorem isNotProgress_ok (d : LoaderData) :
    isNotProgress (Except.ok d) = dataNotProgress d := by
  cases d <;> rfl

/-- An `Err`-wrapped value is never a progress event. -/
theorem isNotProgress_error (e : LoaderError) :
    isNotProgress (Except.error e) = true := rfl

/-- C1 (amended): whenever a loop iteration ends in an error — which the
code produces for provisioning, resolution and walk-enumeration failures,
while checkout-stage failures panic instead — the worker sends exactly one
`Err` value after the iteration's data events and goes on to process the
remaining commands exactly as before, terminating only via `Die`. -/
theorem C1_run_failure_one_error_event_worker_survives
    (cmd : LoaderCommand) (env : RunEnv) (rest : List (LoaderCommand × RunEnv))
    (e : LoaderError) (h : (loader_loop env cmd).exit = LoopExit.err e) :
    (loader_main ((cmd, env) :: rest)).events
      = (loader_loop env cmd).events.map Except.ok
        ++ Except.error e :: (loader_main rest).events
    ∧ (loader_main ((cmd, env) :: rest)).exit = (loader_main rest).exit := by
  rw [loader_main_cons_err cmd env rest e h]
  exact ⟨rfl, rfl⟩

/-- C1 witness: a run whose branch resolves under neither ref form errors
out, yielding exactly one error event, and the worker keeps accepting
commands. -/
theorem C1_witness :
    (loader_loop envNoRef (LoaderCommand.config cfgA)).exit
        = LoopExit.err (LoaderError.other "no such ref")
    ∧ ((loader_main [(LoaderCommand.config cfgA, envNoRef)]).events
        = (loader_loop envNoRef (LoaderCommand.config cfgA)).events.map Except.ok
          ++ Except.error (LoaderError.other "no such ref")
            :: (loader_main ([] : List (LoaderCommand × RunEnv))).events
      ∧ (loader_main [(LoaderCommand.config cfgA, envNoRef)]).exit
        = (loader_main ([] : List (LoaderCommand × RunEnv))).exit) :=
  ⟨rfl, C1_run_failure_one_error_event_worker_survives
    (LoaderCommand.config cfgA) envNoRef [] (LoaderError.other "no such ref") rfl⟩

/-- C1 counterexample to the claim as stated: a checkout failure does not
surface as an Error event — the `unwrap` panics, terminating the worker
thread with zero events sent. -/
theorem C1_checkout_panic_counterexample :
    (loader_main [(LoaderCommand.config cfgA, envCheckoutFail)]).exit
        = MainExit.panicked "checkout_tree unwrap"
    ∧ (loader_main [(LoaderCommand.config cfgA, envCheckoutFail)]).events = [] :=
  ⟨rfl, rfl⟩

/-- C2: once a `Config` command is consumed and the run proceeds, its
events are exactly the walk-order reports of the truncated ancestry, they
form one contiguous block on the result channel, and the remaining
commands are observed only after that block — events of two runs never
interleave. -/
theorem C2_run_events_ordered_not_interleaved
    (cfg : Config) (env : RunEnv) (rest : List (LoaderCommand × RunEnv)) (tip : String)
    (h1 : (acquire env cfg).result = Except.ok ())
    (h2 : env.revwalkNewOk = true)
    (h3 : resolveTip env cfg.repo_branch = Except.ok tip)
    (h4 : env.pushOk tip = true)
    (h5 : ((env.walkItems tip).take cfg.depth).all (itemClean env) = true) :
    (loader_loop env (LoaderCommand.config cfg)).events
      = ((env.walkItems tip).take cfg.depth).map
          (fun it => LoaderData.commitReport (reportOfId env (okId it)))
    ∧ (loader_main ((LoaderCommand.config cfg, env) :: rest)).events
      = (loader_loop env (LoaderCommand.config cfg)).events.map Except.ok
        ++ (loader_main rest).events
    ∧ (loader_main ((LoaderCommand.config cfg, env) :: rest)).exit
      = (loader_main rest).exit := by
  have hc := loader_loop_clean env cfg tip h1 h2 h3 h4 h5
  refine ⟨by rw [hc], ?_, ?_⟩
  · rw [loader_main_cons_finished _ _ _ (by rw [hc])]
  · rw [loader_main_cons_finished _ _ _ (by rw [hc])]

/-- C2 witness: a two-commit history processed at depth 2, followed by no
further command. -/
theorem C2_witness :
    (acquire envA cfgA).result = Except.ok ()
    ∧ envA.revwalkNewOk = true
    ∧ resolveTip envA cfgA.repo_branch = Except.ok "t0"
    ∧ envA.pushOk "t0" = true
    ∧ ((envA.walkItems "t0").take cfgA.depth).all (itemClean envA) = true
    ∧ ((loader_loop envA (LoaderCommand.config cfgA)).events
        = ((envA.walkItems "t0").take cfgA.depth).map
            (fun it => LoaderData.commitReport (reportOfId envA (okId it)))
      ∧ (loader_main ((LoaderCommand.config cfgA, envA)
            :: ([] : List (LoaderCommand × RunEnv)))).events
        = (loader_loop envA (LoaderCommand.config cfgA)).events.map Except.ok
          ++ (loader_main ([] : List (LoaderCommand × RunEnv))).events
      ∧ (loader_main ((LoaderCommand.config cfgA, envA)
            :: ([] : List (LoaderCommand × RunEnv)))).exit
        = (loader_main ([] : List (LoaderCommand × RunEnv))).exit) :=
  ⟨rfl, rfl, rfl, rfl, rfl,
    C2_run_events_ordered_not_interleaved cfgA envA [] "t0" rfl rfl rfl rfl rfl⟩

/-- C3: the walk is the repository's native ancestry order from the
resolved tip truncated to the first `depth` items; `depth = 0` yields zero
reports and zero stats-engine invocations; a depth at least the history
length yields exactly one report per existing commit, with the run
finishing normally rather than erroring. -/
theorem C3_walk_truncation_and_depth
    (cfg : Config) (env : RunEnv) (tip : String)
    (h1 : (acquire env cfg).result = Except.ok ())
    (h2 : env.revwalkNewOk = true)
    (h3 : resolveTip env cfg.repo_branch = Except.ok tip)
    (h4 : env.pushOk tip = true)
    (h5 : ((env.walkItems tip).take cfg.depth).all (itemClean env) = true) :
    (loader_loop env (LoaderCommand.config cfg)).events
      = ((env.walkItems tip).take cfg.depth).map
          (fun it => LoaderData.commitReport (reportOfId env (okId it)))
    ∧ (loader_loop env (LoaderCommand.config cfg)).statsCalls
      = ((env.walkItems tip).take cfg.depth).map okId
    ∧ (loader_loop env (LoaderCommand.config cfg)).exit
      = LoopExit.ok LoaderQuiteCause.finished
    ∧ (cfg.depth = 0 →
        (loader_loop env (LoaderCommand.config cfg)).events = []
        ∧ (loader_loop env (LoaderCommand.config cfg)).statsCalls = [])
    ∧ ((env.walkItems tip).length ≤ cfg.depth →
        (loader_loop env (LoaderCommand.config cfg)).events.length
          = (env.walkItems tip).length) := by
  have hc := loader_loop_clean env cfg tip h1 h2 h3 h4 h5
  rw [hc]
  refine ⟨rfl, rfl, rfl, ?_, ?_⟩
  · intro hd; simp [hd]
  · intro hlen
    simp only [List.length_map, List.length_take]
    omega

/-- C3 witness: depth 2 over a two-commit history; the inner implications
are dischargeable since `cfgA.depth = 2` exceeds no history here. -/
theorem C3_witness :
    (acquire envA cfgA).result = Except.ok ()
    ∧ ((envA.walkItems "t0").take cfgA.depth).all (itemClean envA) = true
    ∧ ((loader_loop envA (LoaderCommand.config cfgA)).events
        = ((envA.walkItems "t0").take cfgA.depth).map
            (fun it => LoaderData.commitReport (reportOfId envA (okId it)))
      ∧ (loader_loop envA (LoaderCommand.config cfgA)).statsCalls
        = ((envA.walkItems "t0").take cfgA.depth).map okId
      ∧ (loader_loop envA (LoaderCommand.config cfgA)).exit
        = LoopExit.ok LoaderQuiteCause.finished
      ∧ (cfgA.depth = 0 →
          (loader_loop envA (LoaderCommand.config cfgA)).events = []
          ∧ (loader_loop envA (LoaderCommand.config cfgA)).statsCalls = [])
      ∧ ((envA.walkItems "t0").length ≤ cfgA.depth →
          (loader_loop envA (LoaderCommand.config cfgA)).events.length
            = (envA.walkItems "t0").length)) :=
  ⟨rfl, rfl, C3_walk_truncation_and_depth cfgA envA "t0" rfl rfl rfl rfl rfl⟩

/-- C4 (amended): ssh-key requests are answered from the agent under the
server-suggested username or the default `git`, an agent failure or an
unsupported scheme yields an error (failing the clone, hence a provisioning
failure); but a user/password request with no `GIT_PASSWORD` material
panics — a crash of the worker, not a `ProvisionError`. -/
theorem C4_credentials_negotiation
    (cenv : CredEnv) (ufu : Option String) (allowed : AllowedTypes)
    (c : Cred) (e p : String) :
    (allowed.is_ssh_key = true → cenv.agentKey (ufu.getD "git") = Except.ok c →
      credentials_callback cenv ufu allowed = CredOutcome.ok c)
    ∧ (allowed.is_ssh_key = true → cenv.agentKey (ufu.getD "git") = Except.error e →
        credentials_callback cenv ufu allowed = CredOutcome.err e)
    ∧ (allowed.is_ssh_key = false → allowed.is_user_pass_plaintext = true →
        cenv.gitPasswordVar = some p →
        credentials_callback cenv ufu allowed
          = CredOutcome.ok (Cred.userpassPlaintext (cenv.gitUsernameVar.getD "git") p))
    ∧ (allowed.is_ssh_key = false → allowed.is_user_pass_plaintext = true →
        cenv.gitPasswordVar = none →
        credentials_callback cenv ufu allowed
          = CredOutcome.panicked "Set GIT_PASSWORD or GIT_TOKEN env var")
    ∧ (allowed.is_ssh_key = false → allowed.is_user_pass_plaintext = false →
        credentials_callback cenv ufu allowed
          = CredOutcome.err "Unsupported credential type") := by
  refine ⟨?_, ?_, ?_, ?_, ?_⟩
  · intro hs ha; simp [credentials_callback, hs, ha]
  · intro hs ha; simp [credentials_callback, hs, ha]
  · intro hs hu hp; simp [credentials_callback, hs, hu, hp]
  · intro hs hu hp; simp [credentials_callback, hs, hu, hp]
  · intro hs hu; simp [credentials_callback, hs, hu]

/-- C4 counterexample to the claim as stated: a user/password request with
no password material available does not fail with a `ProvisionError` — the
`expect` panics, crashing the worker. -/
theorem C4_missing_password_panic_counterexample :
    credentials_callback cenvEmpty none
        { is_ssh_key := false, is_user_pass_plaintext := true }
      = CredOutcome.panicked "Set GIT_PASSWORD or GIT_TOKEN env var" := rfl

/-- C5: the locator is classified solely by filesystem existence: when the
ephemeral directory is created, an existing local path is copied (never
cloned) and a non-existing path is cloned as a remote URL (never
copied). -/
theorem C5_locator_classification (env : RunEnv) (cfg : Config) :
    is_local_repo env cfg.repo_url = env.pathExists cfg.repo_url
    ∧ (acquire env cfg).attempted
      = (if env.tempdirOk then
          (if is_local_repo env cfg.repo_url then some ProvisionMethod.copied
           else some ProvisionMethod.cloned)
         else none) := by
  constructor
  · rfl
  · cases ht : env.tempdirOk
    · simp [acquire, ht]
    · cases hl : is_local_repo env cfg.repo_url
      · simp [acquire, ht, hl]
      · simp [acquire, ht, hl]

/-- C6: resolution tries the remote-tracking ref first and uses its tip
when present; otherwise it falls back to the local branch ref; when
neither resolves, the run produces exactly one error event and zero
reports, and the worker goes on accepting commands. -/
theorem C6_resolution_order_and_failure
    (env : RunEnv) (cfg : Config) (rest : List (LoaderCommand × RunEnv))
    (id e1 e2 : String) :
    (env.revparse ("refs/remotes/origin/" ++ cfg.repo_branch) = Except.ok id →
      resolveTip env cfg.repo_branch = Except.ok id)
    ∧ (env.revparse ("refs/remotes/origin/" ++ cfg.repo_branch) = Except.error e1 →
        env.revparse ("refs/heads/" ++ cfg.repo_branch) = Except.ok id →
        resolveTip env cfg.repo_branch = Except.ok id)
    ∧ (env.revparse ("refs/remotes/origin/" ++ cfg.repo_branch) = Except.error e1 →
        env.revparse ("refs/heads/" ++ cfg.repo_branch) = Except.error e2 →
        resolveTip env cfg.repo_branch = Except.error (LoaderError.other e2)
        ∧ ((acquire env cfg).result = Except.ok () → env.revwalkNewOk = true →
            (loader_loop env (LoaderCommand.config cfg)).events = []
            ∧ (loader_loop env (LoaderCommand.config cfg)).statsCalls = []
            ∧ (loader_main ((LoaderCommand.config cfg, env) :: rest)).events
              = Except.error (LoaderError.other e2) :: (loader_main rest).events
            ∧ (loader_main ((LoaderCommand.config cfg, env) :: rest)).exit
              = (loader_main rest).exit)) := by
  refine ⟨?_, ?_, ?_⟩
  · intro hr; simp [resolveTip, hr]
  · intro hr hl; simp [resolveTip, hr, hl]
  · intro hr hl
    have hres : resolveTip env cfg.repo_branch = Except.error (LoaderError.other e2) := by
      simp [resolveTip, hr, hl]
    refine ⟨hres, ?_⟩
    intro hacq hrw
    have hloop := loader_loop_resolve_err env cfg _ hacq hrw hres
    have hmain := loader_main_cons_err (LoaderCommand.config cfg) env rest
      (LoaderError.other e2) (by rw [hloop])
    rw [hmain, hloop]
    exact ⟨rfl, rfl, rfl, rfl⟩

/-- C7: each emitted report carries the commit's recorded timestamp in
seconds as `commit_date`, the walked commit's full identifier as
`commit_hash`, and one `CodeStats` per language entry of the stats engine's
result for that commit's checked-out tree, copying its file, code, comment
and blank counts. -/
theorem C7_report_fields
    (cfg : Config) (env : RunEnv) (tip : String)
    (h1 : (acquire env cfg).result = Except.ok ())
    (h2 : env.revwalkNewOk = true)
    (h3 : resolveTip env cfg.repo_branch = Except.ok tip)
    (h4 : env.pushOk tip = true)
    (h5 : ((env.walkItems tip).take cfg.depth).all (itemClean env) = true) :
    (loader_loop env (LoaderCommand.config cfg)).events
      = ((env.walkItems tip).take cfg.depth).map (fun it =>
          LoaderData.commitReport
            { commit_date := (commitOf env (okId it)).timeSeconds
              commit_hash := okId it
              stats := (env.statsOf (okId it)).map (fun pr =>
                { language := pr.1
                  files := pr.2.reports
                  code := pr.2.code
                  comments := pr.2.comments
                  blanks := pr.2.blanks }) }) := by
  rw [loader_loop_clean env cfg tip h1 h2 h3 h4 h5]
  rfl

/-- C7 witness: two commits at depth 2 with a one-language stats result. -/
theorem C7_witness :
    (acquire envA cfgA).result = Except.ok ()
    ∧ ((envA.walkItems "t0").take cfgA.depth).all (itemClean envA) = true
    ∧ (loader_loop envA (LoaderCommand.config cfgA)).events
      = ((envA.walkItems "t0").take cfgA.depth).map (fun it =>
          LoaderData.commitReport
            { commit_date := (commitOf envA (okId it)).timeSeconds
              commit_hash := okId it
              stats := (envA.statsOf (okId it)).map (fun pr =>
                { language := pr.1
                  files := pr.2.reports
                  code := pr.2.code
                  comments := pr.2.comments
                  blanks := pr.2.blanks }) }) :=
  ⟨rfl, rfl, C7_report_fields cfgA envA "t0" rfl rfl rfl rfl rfl⟩

/-- C8 (amended): the worker, on receiving `Die` at its command-receive
point, exits at once and emits no further events, ignoring any queued
commands; the handle's public methods send only `Config` commands — none
sends `Die`. -/
theorem C8_die_exits_no_further_events
    (env : RunEnv) (rest : List (LoaderCommand × RunEnv)) :
    loader_loop env LoaderCommand.die
      = { events := [], statsCalls := []
          exit := LoopExit.ok LoaderQuiteCause.die, attempted := none }
    ∧ loader_main ((LoaderCommand.die, env) :: rest)
      = { events := [], statsCalls := [], exit := MainExit.terminated }
    ∧ methodCommand LoaderMethod.new = none
    ∧ methodCommand LoaderMethod.try_recv = none
    ∧ (∀ c : Config, methodCommand (LoaderMethod.update_config c)
        = some (LoaderCommand.config c)) :=
  ⟨rfl, rfl, rfl, rfl, fun _ => rfl⟩

/-- C8 counterexample to the claim as stated: no public method of the
`RepositoryLoader` handle sends the `Die` command — the handle provides no
shutdown operation. -/
theorem C8_no_shutdown_method_counterexample :
    (∃ m : LoaderMethod, methodSendsDie m = true) ↔ False := by
  constructor
  · rintro ⟨m, hm⟩
    cases m <;> simp [methodSendsDie, methodCommand] at hm
  · intro h
    exact h.elim

/-- C9: polling returns the next buffered event at once when one exists and
`empty` at once otherwise; an empty channel whose producer is gone panics
with `thread is dead` — a fatal condition distinct from any normal return —
and a command send to a dead worker likewise fails loudly. -/
theorem C9_try_recv_nonblocking_disconnect_fatal
    (v : Except LoaderError LoaderData) (buf : List (Except LoaderError LoaderData))
    (alive : Bool) (cfg : Config) :
    try_recv { buffered := v :: buf, senderAlive := alive } = TryRecvOutcome.received v
    ∧ try_recv { buffered := [], senderAlive := true } = TryRecvOutcome.empty
    ∧ try_recv { buffered := [], senderAlive := false }
      = TryRecvOutcome.panicked "thread is dead"
    ∧ update_config true cfg = SendOutcome.sent (LoaderCommand.config cfg)
    ∧ update_config false cfg = SendOutcome.panicked "send on a closed channel" :=
  ⟨rfl, rfl, rfl, rfl, rfl⟩

/-- C10: in every execution the worker never sends a `FetchProgress` event:
every `Ok`-wrapped value on the result channel is a `CommitReport`. -/
theorem C10_no_progress_events (inputs : List (LoaderCommand × RunEnv)) :
    ((loader_main inputs).events.all isNotProgress) = true := by
  induction inputs with
  | nil => rfl
  | cons p rest ih =>
    obtain ⟨cmd, env⟩ := p
    have hl := loader_loop_noProgress env cmd
    rw [List.all_eq_true] at hl
    cases hex : (loader_loop env cmd).exit with
    | ok cause =>
      cases cause <;>
        (simp [loader_main, hex, List.all_append, List.all_map, Function.comp,
          isNotProgress_ok, ih]
         exact hl)
    | err e =>
      simp [loader_main, hex, List.all_append, List.all_map, Function.comp,
        isNotProgress_ok, isNotProgress_error, ih]
      exact hl
    | panicked msg =>
      simp [loader_main, hex, List.all_map, Function.comp, isNotProgress_ok]
      exact hl
